import Mathlib

/-!
Verification development for the command-interceptor repository
(src/tools/interceptors/intercept.py and intercept-enhanced.py).

The Python scripts are embedded shallowly:

* Commands are raw `String`s; Python `str.split()` (whitespace
  tokenisation discarding empty tokens) is `pySplit`, and
  Python substring containment (`a in b`) is `pyIn`.
* Calls to `re.search(pattern, text, re.IGNORECASE)` are abstracted by a
  regex oracle.  The fixed catalog patterns of intercept.py are valid
  regexes, so their oracle is total: `reB : String -> String -> Bool`.
  Configuration-supplied patterns of intercept-enhanced.py may fail to
  compile (Python raises re.error), so their oracle is
  `reO : String -> String -> Option Bool`, where `none` models a raised
  re.error and `some b` the result of a successful search.
* `sys.exit`, logging and prompting are made explicit: a run of a main
  function returns a `MainResult` carrying the ordered log statuses, the
  process exit status, how many confirmation prompts read input, and how
  many times the executor (subprocess.run) was invoked.  An uncaught
  Python exception is modelled by the whole main returning `none`.
-/

/-- Python `str.split()` tokenizer: accumulate the current token while
scanning the character list, breaking at whitespace and discarding empty
tokens. -/
def tokensAux : List Char → List Char → List (List Char)
  | [], acc => if acc.isEmpty then [] else [acc]
  | c :: cs, acc =>
    if c.isWhitespace then
      if acc.isEmpty then tokensAux cs [] else acc :: tokensAux cs []
    else tokensAux cs (acc ++ [c])

/-- Python `command.split()`: whitespace-separated tokens, no empties. -/
def pySplit (s : String) : List String :=
  (tokensAux s.toList []).map String.mk

/-- Python `" ".join(parts)`. -/
def joinSpace : List String → String
  | [] => ""
  | [s] => s
  | s :: rest => s ++ " " ++ joinSpace rest

/-- Substring occurrence on character lists; the empty needle occurs in
every haystack, as for Python `in`. -/
def needleIn : List Char → List Char → Bool
  | n, [] => n.isEmpty
  | n, l@(_ :: t) => n.isPrefixOf l || needleIn n t

/-- Python substring containment `needle in haystack`. -/
def pyIn (needle haystack : String) : Bool :=
  needleIn needle.toList haystack.toList

/-- Python `s.strip()`: drop leading and trailing whitespace. -/
def pyStrip (s : String) : String :=
  String.mk (((s.toList.dropWhile Char.isWhitespace).reverse.dropWhile
    Char.isWhitespace).reverse)

/-- Python `s.lower()` (ASCII case fold, which is all the checks use). -/
def pyLower (s : String) : String :=
  String.mk (s.toList.map Char.toLower)

/-! ## Static catalogs of intercept.py (verbatim from the source) -/

/-- `BLOCKED_COMMANDS` of intercept.py: program, forbidden argument
substrings (a `*` entry forbids any invocation of the program).  Dict
insertion order is kept. -/
def BLOCKED_COMMANDS : List (String × List String) :=
  [("rm", ["-rf", "-fr", "-r /"]),
   ("dd", ["if=", "of=/dev"]),
   ("mkfs", ["*"]),
   ("fdisk", ["*"]),
   ("parted", ["*"]),
   ("shutdown", ["*"]),
   ("reboot", ["*"]),
   ("halt", ["*"]),
   ("poweroff", ["*"]),
   ("init", ["0", "6"]),
   ("systemctl", ["disable", "mask", "stop"]),
   ("chmod", ["777 /", "-R 777"]),
   ("chown", ["-R /"])]

/-- `DANGEROUS_PATTERNS` of intercept.py: regex source texts searched
case-insensitively against the whole raw command. -/
def DANGEROUS_PATTERNS : List String :=
  [";\\s*rm\\s+-",
   "\\|\\s*bash",
   "\\|\\s*sh",
   "`.*rm.*`",
   "\\$\\(.*rm.*\\)",
   "base64.*\\|\\s*(bash|sh|eval)",
   "eval\\s+\\$",
   ">\\s*/dev/(sd|hd|nvme)",
   ":\\(\\)\\s*\x7b\\s*:\\|:&\\s*\x7d;:",
   "nc\\s+-[le]",
   "/dev/(tcp|udp)/"]

/-- `CONFIRM_COMMANDS` of intercept.py: program, argument substrings that
trigger a confirmation prompt. -/
def CONFIRM_COMMANDS : List (String × List String) :=
  [("npm", ["install", "i", "ci"]),
   ("pip", ["install"]),
   ("yarn", ["add", "install"]),
   ("apt", ["install", "remove", "purge"]),
   ("brew", ["install", "uninstall"]),
   ("docker", ["run", "exec", "rm"]),
   ("git", ["push", "push -f", "reset --hard"])]

/-- `DATA_THEFT_PATTERNS` of intercept.py. -/
def DATA_THEFT_PATTERNS : List String :=
  ["cat.*(\\.env|credentials|\\.aws|\\.ssh|\\.gnupg)",
   "curl.*(-d|--data).*@",
   "curl.*--upload-file",
   "wget.*--post-file",
   "base64.*(\\.env|credentials|key|secret)",
   "tar.*\\.(env|ssh|aws|gnupg)",
   "zip.*\\.(env|ssh|aws|gnupg)",
   "scp\\s",
   "rsync.*@",
   "nc\\s.*<",
   "curl.*pastebin",
   "curl.*transfer\\.sh",
   "curl.*file\\.io",
   "curl.*0x0\\.st"]

/-- `SENSITIVE_FILE_PATTERNS` of intercept.py. -/
def SENSITIVE_FILE_PATTERNS : List String :=
  ["~?/?\\.ssh/",
   "~?/?\\.aws/",
   "~?/?\\.gnupg/",
   "~?/?\\.config/gcloud",
   "~?/?\\.kube/",
   "~?/?\\.azure/",
   "\\.env",
   "credentials",
   "secrets?\\.",
   ".*_key(\\.pem)?",
   ".*\\.pem",
   ".*\\.key",
   "id_rsa",
   "id_ed25519",
   "\\.npmrc",
   "\\.pypirc",
   "\\.netrc"]

/-- The inline operation list of `is_data_theft`:
`any(op in command for op in [...])`. -/
def EXFIL_OPS : List String :=
  ["cat", "curl", "wget", "nc", "scp", "rsync", "tar", "zip", "base64"]

/-! ## intercept.py analysis functions -/

/-- The inner `for blocked in blocked_args` loop of `is_blocked`. -/
def blockedArgsLoop (cmd args : String) : List String → Bool × String
  | [] => (false, "")
  | b :: bs =>
    if b == "*" || pyIn b args then
      (true, "Blocked command: " ++ cmd ++ " with args matching " ++ b)
    else blockedArgsLoop cmd args bs

/-- The `for pattern in DANGEROUS_PATTERNS` loop of `is_blocked`;
`reB p command` abstracts `re.search(p, command, re.IGNORECASE)`. -/
def dangerousLoop (reB : String → String → Bool) (command : String) :
    List String → Bool × String
  | [] => (false, "")
  | p :: ps =>
    if reB p command then (true, "Dangerous pattern detected: " ++ p)
    else dangerousLoop reB command ps

/-- `is_blocked` of intercept.py: the SystemHarm check.  Empty commands
return before any catalog is consulted; a program found in
`BLOCKED_COMMANDS` is checked against its forbidden argument substrings,
then the dangerous whole-command patterns are searched. -/
def is_blocked (reB : String → String → Bool) (command : String) :
    Bool × String :=
  match pySplit command with
  | [] => (false, "")
  | cmd :: rest =>
    let args := joinSpace rest
    let hit :=
      match BLOCKED_COMMANDS.lookup cmd with
      | some blockedArgs => blockedArgsLoop cmd args blockedArgs
      | none => (false, "")
    if hit.1 then hit
    else dangerousLoop reB command DANGEROUS_PATTERNS

/-- The `for pattern in DATA_THEFT_PATTERNS` loop of `is_data_theft`. -/
def dataTheftLoop (reB : String → String → Bool) (command : String) :
    List String → Bool × String
  | [] => (false, "")
  | p :: ps =>
    if reB p command then (true, "Potential data exfiltration: " ++ p)
    else dataTheftLoop reB command ps

/-- The `for pattern in SENSITIVE_FILE_PATTERNS` loop of `is_data_theft`:
a sensitive-file regex hit fires only when one of the exfiltration
operations also occurs in the command; otherwise the loop continues. -/
def sensitiveLoop (reB : String → String → Bool) (command : String) :
    List String → Bool × String
  | [] => (false, "")
  | p :: ps =>
    if reB p command then
      if EXFIL_OPS.any (fun op => pyIn op command) then
        (true, "Accessing sensitive file: " ++ p)
      else sensitiveLoop reB command ps
    else sensitiveLoop reB command ps

/-- `is_data_theft` of intercept.py, with the module-level
`ENABLE_DATA_THEFT_PREVENTION` environment toggle passed explicitly. -/
def is_data_theft (enabled : Bool) (reB : String → String → Bool)
    (command : String) : Bool × String :=
  if !enabled then (false, "")
  else
    let d := dataTheftLoop reB command DATA_THEFT_PATTERNS
    if d.1 then d
    else sensitiveLoop reB command SENSITIVE_FILE_PATTERNS

/-- The `for confirm_arg in CONFIRM_COMMANDS[cmd]` loop of
`needs_confirmation`. -/
def confirmLoop (cmd args : String) : List String → Bool × String
  | [] => (false, "")
  | a :: as_ =>
    if pyIn a args then (true, cmd ++ " " ++ a)
    else confirmLoop cmd args as_

/-- `needs_confirmation` of intercept.py. -/
def needs_confirmation (command : String) : Bool × String :=
  match pySplit command with
  | [] => (false, "")
  | cmd :: rest =>
    let args := joinSpace rest
    match CONFIRM_COMMANDS.lookup cmd with
    | some confirmArgs => confirmLoop cmd args confirmArgs
    | none => (false, "")


/-! ## intercept-enhanced.py: pattern matching over configured rules -/

/-- Python `pattern.split(":", 1)` when a colon is present: the text
before the first colon and everything after it; `none` when the pattern
holds no colon. -/
def splitFirstColon : List Char → Option (List Char × List Char)
  | [] => none
  | c :: cs =>
    if c = ':' then some ([], cs)
    else
      match splitFirstColon cs with
      | none => none
      | some (a, b) => some (c :: a, b)

/-- `parse_command` of intercept-enhanced.py: program and argument
tokens; the empty command parses to program `""` with no arguments. -/
def parse_command (command : String) : String × List String :=
  match pySplit command with
  | [] => ("", [])
  | p :: rest => (p, rest)

/-- `match_pattern` of intercept-enhanced.py.  `reO regex args` abstracts
`re.search(regex, args_str, re.IGNORECASE)` on a configuration-supplied
regex: `none` models a raised `re.error` (malformed regex), which this
function propagates, so its own result is `none` exactly when the Python
function raises. -/
def match_pattern (reO : String → String → Option Bool)
    (command pattern : String) : Option Bool :=
  let ps :=
    match splitFirstColon pattern.toList with
    | some (a, b) => (String.mk a, String.mk b)
    | none => (pattern, "*")
  let cmdPattern := ps.1
  let argPattern := ps.2
  let pc := parse_command command
  let cmd := pc.1
  let args := pc.2
  if cmdPattern != "*" && cmd != cmdPattern then some false
  else if argPattern == "*" then some true
  else
    let argsStr := joinSpace args
    if "regex:".toList.isPrefixOf argPattern.toList then
      reO (String.mk (argPattern.toList.drop 6)) argsStr
    else some (pyIn argPattern argsStr)

/-- A configuration rule: the Python dict with its optional fields.  Only
`pattern` affects matching (read as `rule.get("pattern", "")`); `message`
and `reason` are display/audit metadata. -/
structure Rule where
  pattern : Option String
  message : Option String := none
  reason : Option String := none
deriving DecidableEq, Repr

/-- `find_matching_rule` of intercept-enhanced.py: linear scan, first
match wins.  The outer `none` is a propagated `re.error`; `some none`
means no rule matched; `some (some r)` is the first matching rule. -/
def find_matching_rule (reO : String → String → Option Bool)
    (command : String) : List Rule → Option (Option Rule)
  | [] => some none
  | r :: rs =>
    match match_pattern reO command (r.pattern.getD "") with
    | none => none
    | some true => some (some r)
    | some false => find_matching_rule reO command rs

/-- The deny/ask/allow rule lists of `permissions.yaml`, as
`load_permissions_config` hands them to `main` (a missing or malformed
file degrades to three empty lists before classification starts). -/
structure Config where
  deny : List Rule
  ask : List Rule
  allow : List Rule
deriving DecidableEq, Repr

/-! ## Decision engine -/

/-- The log statuses the two scripts write (`statusTag` gives the exact
source strings).  They double as the observable decision of a run. -/
inductive Status where
  | blocked
  | allowedAskDeferred
  | deniedByUser
  | approvedByUser
  | allowedStatus
  | allowedDefault
  | errorStatus
  | blockedHarm
  | blockedData
deriving DecidableEq, Repr

/-- The exact string each status is logged as in the source. -/
def statusTag : Status → String
  | .blocked => "BLOCKED"
  | .allowedAskDeferred => "ALLOWED_ASK_DEFERRED"
  | .deniedByUser => "DENIED_BY_USER"
  | .approvedByUser => "APPROVED_BY_USER"
  | .allowedStatus => "ALLOWED"
  | .allowedDefault => "ALLOWED_DEFAULT"
  | .errorStatus => "ERROR"
  | .blockedHarm => "BLOCKED-HARM"
  | .blockedData => "BLOCKED-DATA"

/-- Observable outcome of one run of a main function: the ordered log
statuses, the process exit status (`sys.exit` argument, the executed
command exit status propagated verbatim), how many confirmation
prompts read input, and how many times `subprocess.run` was invoked. -/
structure MainResult where
  log : List Status
  exitCode : Int
  prompts : Nat
  execCalls : Nat
deriving DecidableEq, Repr

/-- The confirmation read of `print_ask_message`: `resp` is the `input()`
result, `none` modelling EOFError/KeyboardInterrupt, which the source
catches and turns into `False` (a denial, never a crash). -/
def print_ask_message (resp : Option String) : Bool :=
  match resp with
  | some s => pyLower (pyStrip s) == "y"
  | none => false

/-- The tail of `main` of intercept-enhanced.py from the ALLOW check on:
log `ALLOWED` or `ALLOWED_DEFAULT`, then in exec mode invoke the
executor (`executor = some rc` is a run returning exit status `rc`,
`none` is `subprocess.run` raising, caught and turned into exit 1). -/
def allowAndExec (reO : String → String → Option Bool) (execMode : Bool)
    (cfg : Config) (executor : Option Int) (command : String)
    (logAcc : List Status) (prompts : Nat) : Option MainResult :=
  match find_matching_rule reO command cfg.allow with
  | none => none
  | some allowOpt =>
    let log1 := logAcc ++
      [match allowOpt with
       | some _ => Status.allowedStatus
       | none => Status.allowedDefault]
    if execMode then
      match executor with
      | some rc => some ⟨log1, rc, prompts, 1⟩
      | none => some ⟨log1 ++ [Status.errorStatus], 1, prompts, 1⟩
    else some ⟨log1, 0, prompts, 0⟩

/-- `main` of intercept-enhanced.py after argv processing: deny scan,
ask scan (deferred in check-only mode, prompted in exec mode), allow
scan, then execution in exec mode.  A result of `none` is an uncaught
exception (a propagated `re.error`). -/
def enhancedMain (reO : String → String → Option Bool) (execMode : Bool)
    (cfg : Config) (resp : Option String) (executor : Option Int)
    (command : String) : Option MainResult :=
  match find_matching_rule reO command cfg.deny with
  | none => none
  | some (some _) => some ⟨[Status.blocked], 1, 0, 0⟩
  | some none =>
    match find_matching_rule reO command cfg.ask with
    | none => none
    | some (some _) =>
      if !execMode then some ⟨[Status.allowedAskDeferred], 0, 0, 0⟩
      else if !print_ask_message resp then
        some ⟨[Status.deniedByUser], 1, 1, 0⟩
      else
        allowAndExec reO true cfg executor command
          [Status.approvedByUser] 1
    | some none =>
      allowAndExec reO execMode cfg executor command [] 0

/-- Modelled from the spec: the unified Decision Engine of spec section
4.4.  No single engine in src/ combines the SystemHarm/DataTheft
catalogs (intercept.py, which has no modes or configured tiers) with the
deny/ask/allow tiers and the check-only/execute split
(intercept-enhanced.py, which has no built-in catalogs); the spec
unifies them in the order SystemHarm, then DataTheft when enabled, then
the configured tiers.  Built directly on the source-derived matchers. -/
def unifiedMain (reB : String → String → Bool)
    (reO : String → String → Option Bool) (theftEnabled execMode : Bool)
    (cfg : Config) (resp : Option String) (executor : Option Int)
    (command : String) : Option MainResult :=
  if (is_blocked reB command).1 then some ⟨[Status.blockedHarm], 1, 0, 0⟩
  else if (is_data_theft theftEnabled reB command).1 then
    some ⟨[Status.blockedData], 1, 0, 0⟩
  else enhancedMain reO execMode cfg resp executor command

/-- The program part of a rule pattern string, as `match_pattern` reads
it: the text before the first colon, or the whole pattern when no colon
occurs (in which case the argument spec defaults to `*`). -/
def patternProgSpec (pattern : String) : String :=
  match splitFirstColon pattern.toList with
  | some (a, _) => String.mk a
  | none => pattern

/-! ## Helper lemmas -/

/-- First-match behaviour of the rule resolver: with every rule before
`r` a clean non-match and `r` a match, the scan returns `r`, whatever
follows it. -/
theorem find_matching_rule_first (reO : String → String → Option Bool)
    (command : String) (pre post : List Rule) (r : Rule)
    (hpre : ∀ x ∈ pre, match_pattern reO command (x.pattern.getD "") = some false)
    (hr : match_pattern reO command (r.pattern.getD "") = some true) :
    find_matching_rule reO command (pre ++ r :: post) = some (some r) := by
  induction pre with
  | nil => simp [find_matching_rule, hr]
  | cons a l ih =>
    have ha := hpre a (List.mem_cons_self a l)
    simp only [List.cons_append, find_matching_rule, ha]
    exact ih fun x hx => hpre x (List.mem_cons_of_mem a hx)

/-- The data-theft pattern loop fires exactly when some catalog regex
matches the command. -/
theorem dataTheftLoop_fst_iff (reB : String → String → Bool)
    (command : String) (L : List String) :
    (dataTheftLoop reB command L).1 = true ↔ ∃ p ∈ L, reB p command = true := by
  induction L with
  | nil => simp [dataTheftLoop]
  | cons a l ih => cases h : reB a command <;> simp [dataTheftLoop, h, ih]

/-- The sensitive-file loop fires exactly when some sensitive regex
matches and the command also holds an exfiltration operation. -/
theorem sensitiveLoop_fst_iff (reB : String → String → Bool)
    (command : String) (L : List String) :
    (sensitiveLoop reB command L).1 = true ↔
      (∃ p ∈ L, reB p command = true) ∧
        EXFIL_OPS.any (fun op => pyIn op command) = true := by
  induction L with
  | nil => simp [sensitiveLoop]
  | cons a l ih =>
    cases h : reB a command with
    | false => simp [sensitiveLoop, h, ih]
    | true =>
      cases hv : EXFIL_OPS.any (fun op => pyIn op command) with
      | false => simp [sensitiveLoop, h, hv, ih]
      | true => simp [sensitiveLoop, h, hv]

/-! ## Claims -/

/-- C1: for every command, if the SystemHarm catalog matches it (a
blocked program+argument entry or a dangerous whole-command pattern,
i.e. `is_blocked` fires), classification is Blocked with exit status 1,
for every invocation mode, every deny/ask/allow configuration, every
data-theft toggle, every prompt response and every executor outcome; no
prompt is read and the executor is never invoked. -/
theorem C1_system_harm_always_blocks (reB : String → String → Bool)
    (reO : String → String → Option Bool) (theftEnabled execMode : Bool)
    (cfg : Config) (resp : Option String) (executor : Option Int)
    (command : String) (h : (is_blocked reB command).1 = true) :
    unifiedMain reB reO theftEnabled execMode cfg resp executor command =
      some ⟨[Status.blockedHarm], 1, 0, 0⟩ := by
  simp [unifiedMain, h]

theorem C1_system_harm_always_blocks_witness :
    unifiedMain (fun _ _ => false) (fun _ _ => some false) true true
      ⟨[], [], []⟩ (some "y") (some 7) "rm -rf /" =
      some ⟨[Status.blockedHarm], 1, 0, 0⟩ :=
  C1_system_harm_always_blocks (fun _ _ => false) (fun _ _ => some false)
    true true ⟨[], [], []⟩ (some "y") (some 7) "rm -rf /" (by decide)

/-- C2: rule resolution returns the first rule in list order whose
pattern matches, independently of every rule after it; and once a Deny
rule matches, the run blocks with exit 1 whatever the Ask and Allow
tiers hold (they are never consulted). -/
theorem C2_first_match_tier_priority (reO : String → String → Option Bool)
    (command : String) (pre post : List Rule) (r : Rule)
    (hpre : ∀ x ∈ pre, match_pattern reO command (x.pattern.getD "") = some false)
    (hr : match_pattern reO command (r.pattern.getD "") = some true) :
    find_matching_rule reO command (pre ++ r :: post) = some (some r) ∧
    ∀ (execMode : Bool) (ask allow : List Rule) (resp : Option String)
      (executor : Option Int),
      enhancedMain reO execMode ⟨pre ++ r :: post, ask, allow⟩ resp executor
        command = some ⟨[Status.blocked], 1, 0, 0⟩ := by
  have hfind := find_matching_rule_first reO command pre post r hpre hr
  refine ⟨hfind, fun execMode ask allow resp executor => ?_⟩
  simp [enhancedMain, hfind]

theorem C2_first_match_tier_priority_witness :
    find_matching_rule (fun _ _ => some false) "rm -rf /"
      ([⟨some "git:push", none, none⟩] ++ ⟨some "rm:-rf", none, none⟩ ::
        [⟨some "*", none, none⟩]) = some (some ⟨some "rm:-rf", none, none⟩) ∧
    ∀ (execMode : Bool) (ask allow : List Rule) (resp : Option String)
      (executor : Option Int),
      enhancedMain (fun _ _ => some false) execMode
        ⟨[⟨some "git:push", none, none⟩] ++ ⟨some "rm:-rf", none, none⟩ ::
          [⟨some "*", none, none⟩], ask, allow⟩ resp executor "rm -rf /" =
        some ⟨[Status.blocked], 1, 0, 0⟩ :=
  C2_first_match_tier_priority (fun _ _ => some false) "rm -rf /"
    [⟨some "git:push", none, none⟩] [⟨some "*", none, none⟩]
    ⟨some "rm:-rf", none, none⟩ (by decide) (by decide)

/-- C3 counterexample: the claim says a malformed regex is treated as a
non-match and classification completes normally.  On the code it does
not: `match_pattern` calls `re.search` with no exception handling, so a
deny rule `cmd:regex:(` (the regex `(` fails to compile, here the oracle
raising on every pattern) makes the whole classification crash (`none`)
instead of completing. -/
theorem C3_counterexample_regex_error_crashes :
    enhancedMain (fun _ _ => none) false
      ⟨[⟨some "cmd:regex:(", none, none⟩], [], []⟩ none none "cmd x" =
      none := by decide

/-- C3 amended: a regex that fails to compile is not recovered: the
error propagates out of `match_pattern` (result `none`) through
`find_matching_rule`, and classification crashes rather than treating
the rule as a non-match. -/
theorem C3_regex_error_propagates (reO : String → String → Option Bool)
    (execMode : Bool) (ask allow : List Rule) (resp : Option String)
    (executor : Option Int) (command : String) (r : Rule) (rs : List Rule)
    (h : match_pattern reO command (r.pattern.getD "") = none) :
    find_matching_rule reO command (r :: rs) = none ∧
    enhancedMain reO execMode ⟨r :: rs, ask, allow⟩ resp executor command =
      none := by
  have hfind : find_matching_rule reO command (r :: rs) = none := by
    simp [find_matching_rule, h]
  exact ⟨hfind, by simp [enhancedMain, hfind]⟩

theorem C3_regex_error_propagates_witness :
    find_matching_rule (fun _ _ => none) "cmd x"
      [⟨some "cmd:regex:(", none, none⟩] = none ∧
    enhancedMain (fun _ _ => none) true
      ⟨[⟨some "cmd:regex:(", none, none⟩], [], []⟩ (some "y") (some 0)
      "cmd x" = none :=
  C3_regex_error_propagates (fun _ _ => none) true [] [] (some "y")
    (some 0) "cmd x" ⟨some "cmd:regex:(", none, none⟩ [] (by decide)

/-- C4: in check-only mode, when no deny rule matches but an Ask rule
does, the run ends AskDeferred (logged ALLOWED_ASK_DEFERRED) with exit
status 0; no prompt reads input and nothing executes, whatever the
response stream or executor would have done. -/
theorem C4_check_only_ask_deferred (reO : String → String → Option Bool)
    (cfg : Config) (resp : Option String) (executor : Option Int)
    (command : String) (askRule : Rule)
    (hdeny : find_matching_rule reO command cfg.deny = some none)
    (hask : find_matching_rule reO command cfg.ask = some (some askRule)) :
    enhancedMain reO false cfg resp executor command =
      some ⟨[Status.allowedAskDeferred], 0, 0, 0⟩ := by
  simp [enhancedMain, hdeny, hask]

theorem C4_check_only_ask_deferred_witness :
    enhancedMain (fun _ _ => some false) false
      ⟨[], [⟨some "npm:install", none, none⟩], []⟩ none (some 9)
      "npm install left-pad" =
      some ⟨[Status.allowedAskDeferred], 0, 0, 0⟩ :=
  C4_check_only_ask_deferred (fun _ _ => some false)
    ⟨[], [⟨some "npm:install", none, none⟩], []⟩ none (some 9)
    "npm install left-pad" ⟨some "npm:install", none, none⟩
    (by decide) (by decide)

/-- C5 counterexample: the claim says a response of `y` approves and any
other response yields DeniedByUser.  The code compares
`response.strip().lower()` with `y`, so the response `Y` — not equal to
`y` — still approves and runs the executor. -/
theorem C5_counterexample_uppercase_Y_approves :
    enhancedMain (fun _ _ => some false) true
      ⟨[], [⟨some "npm:install", none, none⟩], []⟩ (some "Y") (some 0)
      "npm install left-pad" =
      some ⟨[Status.approvedByUser, Status.allowedDefault], 0, 1, 1⟩ := by
  decide

/-- C5 amended: in execute mode with only an Ask rule matching, the
response is first stripped of whitespace and lowercased; if the result
is `y` (`print_ask_message` true) the run logs APPROVED_BY_USER and the
executor is invoked exactly once, and for every other response —
including end-of-input or interruption, modelled by `resp = none` — the
run ends DeniedByUser with exit status 1, the executor is never invoked,
and the interaction error is never propagated as a crash. -/
theorem C5_exec_ask_confirmation (reO : String → String → Option Bool)
    (cfg : Config) (resp : Option String) (executor : Option Int)
    (command : String) (askRule : Rule) (allowOpt : Option Rule)
    (hdeny : find_matching_rule reO command cfg.deny = some none)
    (hask : find_matching_rule reO command cfg.ask = some (some askRule))
    (hallow : find_matching_rule reO command cfg.allow = some allowOpt) :
    (print_ask_message resp = true →
      (enhancedMain reO true cfg resp executor command).map
        (fun m => (m.log.head?, m.execCalls)) =
        some (some Status.approvedByUser, 1)) ∧
    (print_ask_message resp = false →
      enhancedMain reO true cfg resp executor command =
        some ⟨[Status.deniedByUser], 1, 1, 0⟩) := by
  constructor
  · intro hresp
    cases executor with
    | some rc => simp [enhancedMain, hdeny, hask, hresp, allowAndExec, hallow]
    | none => simp [enhancedMain, hdeny, hask, hresp, allowAndExec, hallow]
  · intro hresp
    simp [enhancedMain, hdeny, hask, hresp]

theorem C5_exec_ask_confirmation_witness :
    ((print_ask_message (some " y ") = true →
      (enhancedMain (fun _ _ => some false) true
        ⟨[], [⟨some "npm:install", none, none⟩], []⟩ (some " y ") (some 3)
        "npm install left-pad").map
        (fun m => (m.log.head?, m.execCalls)) =
        some (some Status.approvedByUser, 1)) ∧
    (print_ask_message (some " y ") = false →
      enhancedMain (fun _ _ => some false) true
        ⟨[], [⟨some "npm:install", none, none⟩], []⟩ (some " y ") (some 3)
        "npm install left-pad" =
        some ⟨[Status.deniedByUser], 1, 1, 0⟩)) :=
  C5_exec_ask_confirmation (fun _ _ => some false)
    ⟨[], [⟨some "npm:install", none, none⟩], []⟩ (some " y ") (some 3)
    "npm install left-pad" ⟨some "npm:install", none, none⟩ none
    (by decide) (by decide) (by decide)

/-- C6: a command matching no rule in the deny, ask or allow tier
resolves to AllowedDefault: in check-only mode the run logs
ALLOWED_DEFAULT and exits 0 reading no input and executing nothing, and
in every mode the classification outcome is AllowedDefault, never an
error. -/
theorem C6_default_allow (reO : String → String → Option Bool)
    (cfg : Config) (resp : Option String) (executor : Option Int)
    (command : String)
    (hdeny : find_matching_rule reO command cfg.deny = some none)
    (hask : find_matching_rule reO command cfg.ask = some none)
    (hallow : find_matching_rule reO command cfg.allow = some none) :
    enhancedMain reO false cfg resp executor command =
      some ⟨[Status.allowedDefault], 0, 0, 0⟩ ∧
    ∀ execMode : Bool,
      (enhancedMain reO execMode cfg resp executor command).map
        (fun m => m.log.head?) = some (some Status.allowedDefault) := by
  constructor
  · simp [enhancedMain, hdeny, hask, allowAndExec, hallow]
  · intro execMode
    cases execMode with
    | false => simp [enhancedMain, hdeny, hask, allowAndExec, hallow]
    | true =>
      cases executor with
      | some rc => simp [enhancedMain, hdeny, hask, allowAndExec, hallow]
      | none => simp [enhancedMain, hdeny, hask, allowAndExec, hallow]

theorem C6_default_allow_witness :
    (enhancedMain (fun _ _ => some false) false
      ⟨[⟨some "rm:-rf", none, none⟩], [⟨some "npm:install", none, none⟩],
        [⟨some "git", none, none⟩]⟩ none none "ls -la" =
      some ⟨[Status.allowedDefault], 0, 0, 0⟩) ∧
    ∀ execMode : Bool,
      (enhancedMain (fun _ _ => some false) execMode
        ⟨[⟨some "rm:-rf", none, none⟩], [⟨some "npm:install", none, none⟩],
          [⟨some "git", none, none⟩]⟩ none none "ls -la").map
        (fun m => m.log.head?) = some (some Status.allowedDefault) :=
  C6_default_allow (fun _ _ => some false)
    ⟨[⟨some "rm:-rf", none, none⟩], [⟨some "npm:install", none, none⟩],
      [⟨some "git", none, none⟩]⟩ none none "ls -la"
    (by decide) (by decide) (by decide)

/-- C7: with the data-theft toggle enabled, `is_data_theft` fires
exactly when a direct exfiltration regex matches the whole command, or a
sensitive-file regex matches and the command also holds one of the
exfiltration operations; in particular a sensitive path alone, with no
such operation in the command, never fires.  With the toggle disabled it
never fires at all. -/
theorem C7_data_theft_characterisation (reB : String → String → Bool)
    (command : String) :
    ((is_data_theft true reB command).1 = true ↔
      (∃ p ∈ DATA_THEFT_PATTERNS, reB p command = true) ∨
      ((∃ p ∈ SENSITIVE_FILE_PATTERNS, reB p command = true) ∧
        EXFIL_OPS.any (fun op => pyIn op command) = true)) ∧
    (is_data_theft false reB command).1 = false := by
  refine ⟨?_, by simp [is_data_theft]⟩
  rw [← dataTheftLoop_fst_iff reB command DATA_THEFT_PATTERNS,
    ← sensitiveLoop_fst_iff reB command SENSITIVE_FILE_PATTERNS]
  unfold is_data_theft
  cases hd : (dataTheftLoop reB command DATA_THEFT_PATTERNS).1 <;>
    simp [hd]

/-- C8 counterexample: the claim says an executor that cannot start
yields a non-zero status distinct from any status the command itself
could have produced.  The code exits 1 on an execution error, and a
command exiting 1 produces the very same process status, so the failure
status is not distinct. -/
theorem C8_counterexample_error_status_collides :
    enhancedMain (fun _ _ => some false) true ⟨[], [], []⟩ none none
      "ls" =
      some ⟨[Status.allowedDefault, Status.errorStatus], 1, 0, 1⟩ ∧
    enhancedMain (fun _ _ => some false) true ⟨[], [], []⟩ none (some 1)
      "ls" = some ⟨[Status.allowedDefault], 1, 0, 1⟩ := by decide

/-- C8 amended: in execute mode, when the approved command runs, the
process exit status equals the executor status verbatim; when the
executor cannot be started the run logs ERROR and exits 1 — a non-zero
status, but the same one a command exiting 1 (or a blocked command)
produces, not a distinct one. -/
theorem C8_exit_status_propagation (reO : String → String → Option Bool)
    (cfg : Config) (resp : Option String) (command : String)
    (allowOpt : Option Rule)
    (hdeny : find_matching_rule reO command cfg.deny = some none)
    (hask : find_matching_rule reO command cfg.ask = some none)
    (hallow : find_matching_rule reO command cfg.allow = some allowOpt) :
    (∀ rc : Int,
      (enhancedMain reO true cfg resp (some rc) command).map
        MainResult.exitCode = some rc) ∧
    (enhancedMain reO true cfg resp none command).map
      (fun m => (m.exitCode, m.log.getLast?)) =
      some (1, some Status.errorStatus) := by
  constructor
  · intro rc
    simp [enhancedMain, hdeny, hask, allowAndExec, hallow]
  · simp [enhancedMain, hdeny, hask, allowAndExec, hallow]

theorem C8_exit_status_propagation_witness :
    (∀ rc : Int,
      (enhancedMain (fun _ _ => some false) true ⟨[], [], []⟩ none
        (some rc) "ls -la").map MainResult.exitCode = some rc) ∧
    (enhancedMain (fun _ _ => some false) true ⟨[], [], []⟩ none none
      "ls -la").map (fun m => (m.exitCode, m.log.getLast?)) =
      some (1, some Status.errorStatus) :=
  C8_exit_status_propagation (fun _ _ => some false) ⟨[], [], []⟩ none
    "ls -la" none (by decide) (by decide) (by decide)

/-- C9 counterexample: the claim says the empty command matches no
pattern, including the wildcard program spec `*`.  On the code the
pattern `*` parses to program spec `*` with argument spec `*`, and
`match_pattern` accepts every command — the empty one included. -/
theorem C9_counterexample_wildcard_matches_empty :
    match_pattern (fun _ _ => none) "" "*" = some true := by decide

/-- C9 amended: the empty command (no tokens) fails `is_blocked` and
`needs_confirmation` before any catalog entry is consulted, and matches
no rule pattern whose program spec is a literal name (neither `*` nor
empty); but a pattern whose program spec is the wildcard `*` and whose
argument spec is `*` — in particular the bare pattern `*` — does match
the empty command. -/
theorem C9_empty_command_matching (reB : String → String → Bool)
    (reO : String → String → Option Bool) :
    is_blocked reB "" = (false, "") ∧
    needs_confirmation "" = (false, "") ∧
    (∀ pattern : String, patternProgSpec pattern ≠ "*" →
      patternProgSpec pattern ≠ "" →
      match_pattern reO "" pattern = some false) ∧
    match_pattern reO "" "*" = some true := by
  refine ⟨rfl, rfl, ?_, rfl⟩
  intro pattern h1 h2
  unfold patternProgSpec at h1 h2
  cases hs : splitFirstColon pattern.toList with
  | none =>
    rw [hs] at h1 h2
    have hs' : splitFirstColon pattern.data = none := hs
    have h1' : pattern ≠ "*" := h1
    have h2' : ("" : String) ≠ pattern := fun h => h2 h.symm
    simp [match_pattern, hs', parse_command, pySplit, tokensAux,
      bne_iff_ne, h1', h2']
  | some ab =>
    obtain ⟨a, b⟩ := ab
    rw [hs] at h1 h2
    have hs' : splitFirstColon pattern.data = some (a, b) := hs
    have h1' : String.mk a ≠ "*" := h1
    have h2' : ("" : String) ≠ String.mk a := fun h => h2 h.symm
    simp [match_pattern, hs', parse_command, pySplit, tokensAux,
      bne_iff_ne, h1', h2']

theorem C9_empty_command_matching_witness :
    is_blocked (fun _ _ => true) "" = (false, "") ∧
    needs_confirmation "" = (false, "") ∧
    (∀ pattern : String, patternProgSpec pattern ≠ "*" →
      patternProgSpec pattern ≠ "" →
      match_pattern (fun _ _ => some true) "" pattern = some false) ∧
    match_pattern (fun _ _ => some true) "" "*" = some true :=
  C9_empty_command_matching (fun _ _ => true) (fun _ _ => some true)

/-- C10: the confirmation catalog is matched by substring containment of
each entry in the space-joined argument string, so every command whose
program is `npm` and whose arguments contain the letter `i` anywhere —
not only the listed subcommands — needs confirmation, `i` being a
catalog entry for npm. -/
theorem C10_npm_substring_confirmation (command : String)
    (rest : List String) (hsplit : pySplit command = "npm" :: rest)
    (hi : pyIn "i" (joinSpace rest) = true) :
    (needs_confirmation command).1 = true := by
  have hl : CONFIRM_COMMANDS.lookup "npm" = some ["install", "i", "ci"] := by
    decide
  cases h1 : pyIn "install" (joinSpace rest) <;>
    simp [needs_confirmation, hsplit, hl, confirmLoop, h1, hi]

theorem C10_npm_substring_confirmation_witness :
    (needs_confirmation "npm list").1 = true :=
  C10_npm_substring_confirmation "npm list" ["list"] (by decide) (by decide)
